import Mathlib

/-!
Verification of the product-listing page of this repository.

The page (`src/app/pages/index.vue`, first script block) keeps a list of
products fetched from a remote endpoint together with client-side table state:
a current page, a fixed page size, a title filter handled by the table widget,
row selection, row expansion, a loading flag and a cosmetic progress value
advanced by a timer. A second near-duplicate variant lives in the same file and
a third one in `src/unnamed/part_000`.

The definitions below are translated from that source. Where a definition
models behaviour that lives outside the repository (the table widget's
selection store, the JavaScript array sort builtin), its doc comment says so
explicitly and follows the specification's words.
-/

namespace Lab8

/-- Product record as declared by `type Product` in `src/app/pages/index.vue`. -/
structure Product where
  id : ℕ
  title : String
  description : String
  price : ℚ
  discountPercentage : ℚ
  rating : ℚ
  stock : ℕ
  brand : String
  category : String
  thumbnail : String
  images : List String
deriving DecidableEq

/-- Payload of a `toast.add` call. -/
structure Toast where
  title : String
  color : String
  icon : String
deriving DecidableEq

/-- Reactive state of the first page variant in `index.vue`:
`data`, `loading`, `progress`, the `progressInterval` ref, `currentPage`,
`itemsPerPage`, the table's title filter value, the toasts recorded so far,
and whether the component is mounted.

The timer machinery is modelled by three fields. `progressInterval` is the
handle currently stored in the `progressInterval` ref (the value every
`clearInterval(progressInterval.value)` in the source targets); `activeTimers`
is the set of interval handles that have been created by `setInterval` and not
yet cleared — a handle can stay in this set after the ref was overwritten by a
second in-flight load, which is exactly the orphaned timer the source can
create; `nextTimer` mints fresh handles, starting at 1 so that every real
handle is truthy as in the browser.

`rowSelection` and `expandedRows` are modelled from the spec (§3 Table View
State): those two sets live inside the third-party table widget, which the
spec describes as sets of `Product.id` toggled by the row checkbox and the
expand action. -/
structure AppState where
  data : List Product
  loading : Bool
  progress : ℚ
  progressInterval : Option ℕ
  activeTimers : Finset ℕ
  nextTimer : ℕ
  currentPage : ℕ
  itemsPerPage : ℕ
  filterText : String
  rowSelection : Finset ℕ
  expandedRows : Finset ℕ
  toasts : List Toast
  mounted : Bool

/-- Initial component state: empty data, `loading = true`, `progress = 0`,
no timer ever created, page 1 with page size 10, empty filter, nothing
selected or expanded, no toasts, component mounted. -/
def initState : AppState :=
  { data := []
    loading := true
    progress := 0
    progressInterval := none
    activeTimers := ∅
    nextTimer := 1
    currentPage := 1
    itemsPerPage := 10
    filterText := ""
    rowSelection := ∅
    expandedRows := ∅
    toasts := []
    mounted := true }

/-- `paginatedData` computed: `data.slice(start, start + itemsPerPage)` with
`start = (currentPage - 1) * itemsPerPage`. Note that it slices the raw,
unfiltered `data`. -/
def paginatedData (data : List Product) (currentPage itemsPerPage : ℕ) : List Product :=
  (data.drop ((currentPage - 1) * itemsPerPage)).take itemsPerPage

/-- `totalPages` computed: `Math.ceil(data.length / itemsPerPage)`, written
for a positive `itemsPerPage` as `(length + itemsPerPage - 1) / itemsPerPage`
in natural-number division. -/
def totalPages (data : List Product) (itemsPerPage : ℕ) : ℕ :=
  (data.length + itemsPerPage - 1) / itemsPerPage

/-- `changePage(page)`: sets `currentPage` when `1 ≤ page ≤ totalPages`,
otherwise does nothing. The argument is an integer so that requests below 1
are also covered. -/
def changePage (s : AppState) (page : ℤ) : AppState :=
  if 1 ≤ page ∧ page ≤ (totalPages s.data s.itemsPerPage : ℤ) then
    { s with currentPage := page.toNat }
  else s

/-- Entry of `fetchProducts`: `loading.value = true; progress.value = 0` and
`progressInterval.value = setInterval(...)` — a fresh interval handle is
created and stored in the ref. The previous contents of the ref are
overwritten without any `clearInterval`, so a timer started by an earlier,
still-in-flight load stays in `activeTimers` as an orphan. -/
def startFetch (s : AppState) : AppState :=
  { s with
    loading := true
    progress := 0
    progressInterval := some s.nextTimer
    activeTimers := insert s.nextTimer s.activeTimers
    nextTimer := s.nextTimer + 1 }

/-- One firing of the callback of interval `t`:
`progress.value = Math.min(progress.value + Math.random() * 15, 95)`, then
`if (progress.value >= 95 && progressInterval.value)
clearInterval(progressInterval.value)` — note the source clears the handle
currently stored in the ref, not necessarily the interval that is firing.
The random increment `Math.random() * 15` is passed in as `r`. A tick only
happens for an interval that is still active. -/
def progressIntervalTick (s : AppState) (t : ℕ) (r : ℚ) : AppState :=
  if t ∈ s.activeTimers then
    { s with
      progress := min (s.progress + r) 95
      activeTimers :=
        if 95 ≤ min (s.progress + r) 95 ∧ s.progressInterval.isSome then
          s.activeTimers \ s.progressInterval.toFinset
        else s.activeTimers }
  else s

/-- Successful resolution of the fetch inside `fetchProducts`:
`data.value = result.products; progress.value = 100` and the `finally` block
runs `if (progressInterval.value) clearInterval(progressInterval.value)` —
it cancels exactly the handle currently stored in the ref, written here as
removing `progressInterval.toFinset` from the active set. (`loading` is
cleared 500 ms later by a separate timeout, `loadingTimeout` below.) Note
that `currentPage` is left untouched. -/
def fetchProductsSuccess (s : AppState) (products : List Product) : AppState :=
  { s with
    data := products
    progress := 100
    activeTimers := s.activeTimers \ s.progressInterval.toFinset }

/-- The 500 ms timeout scheduled on success: `loading.value = false`. -/
def loadingTimeout (s : AppState) : AppState :=
  { s with loading := false }

/-- The toast recorded by the catch block of `fetchProducts`. -/
def fetchErrorToast : Toast :=
  { title := "Error fetching products", color := "error", icon := "i-lucide-alert-circle" }

/-- Failure path of `fetchProducts` (catch block plus `finally`): the error is
logged, one error toast is recorded, `loading.value = false`, and the
`finally` block cancels the handle currently stored in the ref. Nothing else
is touched. -/
def fetchProductsFailure (s : AppState) : AppState :=
  { s with
    toasts := s.toasts ++ [fetchErrorToast]
    loading := false
    activeTimers := s.activeTimers \ s.progressInterval.toFinset }

/-- Update of the table's title filter value
(`getColumn('title').setFilterValue($event)`). -/
def setFilterValue (s : AppState) (t : String) : AppState :=
  { s with filterText := t }

/-- Modelled from the spec: `row.toggleSelected` of the table widget, whose
implementation is not part of this repository. Per the spec (§3, §4.2) the
selected rows form a set of `Product.id` and toggling flips membership of the
given id. -/
def toggleSelected (s : AppState) (pid : ℕ) : AppState :=
  if pid ∈ s.rowSelection then
    { s with rowSelection := s.rowSelection.erase pid }
  else
    { s with rowSelection := insert pid s.rowSelection }

/-- Modelled from the spec: `row.toggleExpanded` of the table widget; flips
membership of the given id in the expanded-row set. -/
def toggleExpanded (s : AppState) (pid : ℕ) : AppState :=
  if pid ∈ s.expandedRows then
    { s with expandedRows := s.expandedRows.erase pid }
  else
    { s with expandedRows := insert pid s.expandedRows }

/-- Component teardown. The component registers `onMounted` only; no unmount
hook exists in the source, so teardown runs no component code: it merely marks
the component unmounted and in particular does not clear the progress
interval. -/
def componentUnmount (s : AppState) : AppState :=
  { s with mounted := false }

/-- Does `cs` start with `pat`? (`String.startsWith` on character lists.) -/
def startsWithChars : List Char → List Char → Bool
  | [], _ => true
  | _ :: _, [] => false
  | p :: ps, c :: cs => p == c && startsWithChars ps cs

/-- Does `cs` contain `pat` as a contiguous run? (`String.includes` on
character lists: the empty pattern is contained everywhere.) -/
def containsChars (pat : List Char) : List Char → Bool
  | [] => pat.isEmpty
  | c :: cs => startsWithChars pat (c :: cs) || containsChars pat cs

/-- Case-insensitive substring test: the table widget's built-in
`includesString` filter, `value.toLowerCase().includes(filter.toLowerCase())`,
which is the default filter for the string-valued `title` column. An empty
filter matches every row. -/
def titleMatches (title filterText : String) : Bool :=
  containsChars (filterText.data.map Char.toLower) (title.data.map Char.toLower)

/-- Rows actually rendered by the first variant: `UTable` receives
`paginatedData` as its `:data`, and the widget then applies the title filter
to those rows. So the slice is taken from the raw data first and the filter
runs only inside the current page. -/
def visibleRows (data : List Product) (filterText : String)
    (currentPage itemsPerPage : ℕ) : List Product :=
  (paginatedData data currentPage itemsPerPage).filter
    (fun p => titleMatches p.title filterText)

/-- The pipeline in the order the spec asserts (§4.2: filter the full data
set, then slice). Stated only to be compared with `visibleRows` above. -/
def specVisibleRows (data : List Product) (filterText : String)
    (currentPage itemsPerPage : ℕ) : List Product :=
  paginatedData (data.filter (fun p => titleMatches p.title filterText))
    currentPage itemsPerPage

/-- Modelled JavaScript builtin: one step chain of
`Array.prototype.sort(() => Math.random() - 0.5)`. ECMAScript specifies that
`sort` rearranges the gathered elements by an implementation-defined sequence
of comparator calls and writes back a list containing exactly those elements;
with an inconsistent comparator the order is implementation-defined but the
result is still made of the same elements. We model one comparison-driven
procedure (top-down merge) whose comparator answers — the signs of the random
draws — are supplied as the oracle list `bs`, threaded through the calls; `bs`
ranges over all possible answer sequences. `jsMerge` merges two runs, handing
back the unconsumed part of the oracle. -/
def jsMerge {α : Type} : List α → List α → List Bool → List α × List Bool
  | [], ys, bs => (ys, bs)
  | x :: xs, [], bs => (x :: xs, bs)
  | x :: xs, y :: ys, bs =>
    if bs.headD false then
      (x :: (jsMerge xs (y :: ys) bs.tail).1, (jsMerge xs (y :: ys) bs.tail).2)
    else
      (y :: (jsMerge (x :: xs) ys bs.tail).1, (jsMerge (x :: xs) ys bs.tail).2)
termination_by xs ys _ => xs.length + ys.length

/-- Modelled JavaScript builtin, continued: the sort itself — split, sort the
halves, merge with the oracle threaded left to right. -/
def jsSortRand {α : Type} : List α → List Bool → List α × List Bool
  | [], bs => ([], bs)
  | [x], bs => ([x], bs)
  | x :: y :: rest, bs =>
    let half := (x :: y :: rest).length / 2
    let r1 := jsSortRand ((x :: y :: rest).take half) bs
    let r2 := jsSortRand ((x :: y :: rest).drop half) r1.2
    jsMerge r1.1 r2.1 r2.2
termination_by xs _ => xs.length
decreasing_by
  all_goals simp [List.length_take, List.length_drop]
  all_goals omega

/-- `randomize()`: `data.value = [...data.value].sort(() => Math.random() - 0.5)`
— copy the list, sort it with the random comparator (oracle `bs`), store the
result back. Nothing else is touched. -/
def randomize (s : AppState) (bs : List Bool) : AppState :=
  { s with data := (jsSortRand s.data bs).1 }

/-- The rating cell of the table: the numeric value is rendered with
`rating.toFixed(1)` and the cell carries `text-green-500` when
`rating >= 4.5`, else `text-red-500`. `intPart` and `tenthDigit` are the two
parts of the one-decimal string `toFixed(1)` produces: JavaScript picks the
integer `n` with `n / 10` closest to the value, choosing the larger on ties,
i.e. `n = ⌊10·r + 1/2⌋`, and prints `n / 10` as `intPart.tenthDigit`. -/
def jsToFixed1 (r : ℚ) : ℤ := ⌊10 * r + 1 / 2⌋

/-- Rendered rating cell: integer part, single decimal digit, and whether the
positive (green) class is applied. -/
structure RatingCell where
  intPart : ℤ
  tenthDigit : ℕ
  positive : Bool
deriving DecidableEq

/-- Cell renderer of the `rating` column in `index.vue` (and identically in
`src/unnamed/part_000`). -/
def renderRating (r : ℚ) : RatingCell :=
  { intPart := jsToFixed1 r / 10
    tenthDigit := (jsToFixed1 r % 10).toNat
    positive := decide ((4.5 : ℚ) ≤ r) }

/-- The expanded-row detail panel (`#expanded` template): up to three of the
record's images (`row.original.images.slice(0, 3)`), the title, description,
discount percentage and stock, with the stock badge `success` when
`stock > 50` and `warning` otherwise. Everything is read from `row.original`,
the already-loaded record — the renderer is a pure function of it. -/
structure ExpandedPanel where
  images : List String
  title : String
  description : String
  discountPercentage : ℚ
  stock : ℕ
  stockHigh : Bool
deriving DecidableEq

/-- Renderer of the expanded detail panel. -/
def renderExpanded (p : Product) : ExpandedPanel :=
  { images := p.images.take 3
    title := p.title
    description := p.description
    discountPercentage := p.discountPercentage
    stock := p.stock
    stockHigh := decide (50 < p.stock) }

/-- Events the page reacts to: every mutation of the component state found in
the source, plus the timer tick, fetch outcomes and teardown. -/
inductive Step : AppState → AppState → Prop
  | startLoad (s : AppState) : Step s (startFetch s)
  | tick (s : AppState) (t : ℕ) (r : ℚ) : Step s (progressIntervalTick s t r)
  | loadSuccess (s : AppState) (ps : List Product) : Step s (fetchProductsSuccess s ps)
  | loadDone (s : AppState) : Step s (loadingTimeout s)
  | loadFail (s : AppState) : Step s (fetchProductsFailure s)
  | page (s : AppState) (p : ℤ) : Step s (changePage s p)
  | filter (s : AppState) (t : String) : Step s (setFilterValue s t)
  | select (s : AppState) (pid : ℕ) : Step s (toggleSelected s pid)
  | expand (s : AppState) (pid : ℕ) : Step s (toggleExpanded s pid)
  | shuffle (s : AppState) (bs : List Bool) : Step s (randomize s bs)
  | teardown (s : AppState) : Step s (componentUnmount s)

/-- States reachable from the freshly mounted component. -/
abbrev Reachable (s : AppState) : Prop :=
  Relation.ReflTransGen Step initState s

/-- The pagination invariant asserted by the spec, over the raw data the page
actually slices: either no data is loaded, or the current page lies in
`[1, totalPages]`. -/
def pageOk (s : AppState) : Prop :=
  s.data = [] ∨ (1 ≤ s.currentPage ∧ s.currentPage ≤ totalPages s.data s.itemsPerPage)

instance (s : AppState) : Decidable (pageOk s) := by
  unfold pageOk
  infer_instance

/-- State of the loader page in `src/unnamed/part_000`: its product list and
loading flag, plus the list of toasts it has recorded (that component never
creates a toaster, so no operation of it can append a toast). -/
structure LoaderState where
  data : List Product
  loading : Bool
  toasts : List Toast
deriving DecidableEq

/-- Failure path of `fetchProducts` in `src/unnamed/part_000` (catch plus
`finally`): `console.error` only, then `loading.value = false`. The data is
left untouched and no toast is recorded. -/
def part000FetchFailure (s : LoaderState) : LoaderState :=
  { s with loading := false }

/-! Concrete data used by scenarios, counterexamples and witnesses. -/

/-- A product with the given id and title and neutral remaining fields. -/
def mkP (i : ℕ) (t : String) : Product :=
  { id := i
    title := t
    description := ""
    price := 1
    discountPercentage := 0
    rating := 0
    stock := 0
    brand := ""
    category := ""
    thumbnail := ""
    images := [] }

/-- A data set of 25 products (the spec's pagination scenario). -/
def d25 : List Product :=
  (List.range 25).map (fun i => mkP (i + 1) ("Product " ++ toString (i + 1)))

/-- A smaller data set of 5 products, as a later reload could return. -/
def d5 : List Product :=
  (List.range 5).map (fun i => mkP (i + 1) ("Product " ++ toString (i + 1)))

/-- The single product whose title matches the filter in the C1 input. -/
def appleProduct : Product := mkP 11 "Apple"

/-- Eleven products: ten `Widget k` rows followed by one `Apple` row, so the
only match for the filter `apple` sits just past the first page. -/
def data11 : List Product :=
  ((List.range 10).map (fun i => mkP i ("Widget " ++ toString i))) ++ [appleProduct]

/-- The app state right after the 25 products were loaded. -/
def s25w : AppState := { initState with data := d25 }

/-- The app state on page 3 of the 25-product data set. -/
def s25page3 : AppState := { initState with data := d25, currentPage := 3 }

/-- A state with a load in flight: the progress timer is running. -/
def sRunning : AppState := startFetch initState

/-- Reachable state after two overlapping loads have both completed: the
second `fetchProducts` overwrote the `progressInterval` ref (orphaning
interval 1), and each load's `finally` cleared only the stored handle
(interval 2), so interval 1 is still active although no load is in
flight. -/
def sOrphan : AppState :=
  fetchProductsSuccess (fetchProductsSuccess (startFetch (startFetch initState)) d25) d5

/-- Reachable state in which the 25-product set was loaded, the user moved to
page 3, and a reload then replaced the data with only 5 products. -/
def sBad : AppState :=
  fetchProductsSuccess
    (startFetch (changePage (fetchProductsSuccess (startFetch initState) d25) 3)) d5

/-- A state with rows 1 and 2 selected. -/
def selState : AppState := { initState with data := d25, rowSelection := {1, 2} }

/-! Helper lemmas. -/

/-- Merging two runs with any oracle yields a permutation of their
concatenation (fuel-indexed form). -/
theorem jsMerge_fst_perm_aux {α : Type} :
    ∀ (n : ℕ) (xs ys : List α) (bs : List Bool), xs.length + ys.length ≤ n →
      ((jsMerge xs ys bs).1).Perm (xs ++ ys) := by
  intro n
  induction n with
  | zero =>
    intro xs ys bs h
    cases xs with
    | nil => simp [jsMerge]
    | cons x xs => simp at h
  | succ n ih =>
    intro xs ys bs h
    cases xs with
    | nil => simp [jsMerge]
    | cons x xs =>
      cases ys with
      | nil => simp [jsMerge]
      | cons y ys =>
        simp only [jsMerge]
        by_cases hb : bs.headD false = true
        · rw [if_pos hb]
          have h1 := ih xs (y :: ys) bs.tail (by simp at h ⊢; omega)
          exact List.Perm.cons x h1
        · rw [if_neg hb]
          have h1 := ih (x :: xs) ys bs.tail (by simp at h ⊢; omega)
          refine List.Perm.trans (List.Perm.cons y h1) ?_
          exact (List.perm_middle).symm

/-- Merging two runs with any oracle yields a permutation of their
concatenation. -/
theorem jsMerge_fst_perm {α : Type} (xs ys : List α) (bs : List Bool) :
    ((jsMerge xs ys bs).1).Perm (xs ++ ys) :=
  jsMerge_fst_perm_aux (xs.length + ys.length) xs ys bs le_rfl

/-- Sorting with the random-comparator oracle returns a permutation of the
input (fuel-indexed form). -/
theorem jsSortRand_fst_perm_aux {α : Type} :
    ∀ (n : ℕ) (xs : List α) (bs : List Bool), xs.length ≤ n →
      ((jsSortRand xs bs).1).Perm xs := by
  intro n
  induction n with
  | zero =>
    intro xs bs h
    cases xs with
    | nil => simp [jsSortRand]
    | cons x xs => simp at h
  | succ n ih =>
    intro xs bs h
    match xs with
    | [] => simp [jsSortRand]
    | [x] => simp [jsSortRand]
    | x :: y :: rest =>
      simp only [jsSortRand]
      have hlen : (x :: y :: rest).length = rest.length + 2 := by simp
      have htake :
          ((x :: y :: rest).take ((x :: y :: rest).length / 2)).length ≤ n := by
        simp only [List.length_take, hlen] at *
        simp at h
        omega
      have hdrop :
          ((x :: y :: rest).drop ((x :: y :: rest).length / 2)).length ≤ n := by
        simp only [List.length_drop, hlen] at *
        simp at h
        omega
      have h1 := ih _ bs htake
      have h2 := ih _ (jsSortRand ((x :: y :: rest).take ((x :: y :: rest).length / 2)) bs).2 hdrop
      refine List.Perm.trans (jsMerge_fst_perm _ _ _) ?_
      refine List.Perm.trans (List.Perm.append h1 h2) ?_
      rw [List.take_append_drop]

/-- Sorting with the random-comparator oracle returns a permutation of the
input. -/
theorem jsSortRand_fst_perm {α : Type} (xs : List α) (bs : List Bool) :
    ((jsSortRand xs bs).1).Perm xs :=
  jsSortRand_fst_perm_aux xs.length xs bs le_rfl

/-- `changePage` preserves the pagination invariant: it either lands inside
`[1, totalPages]` or leaves the state unchanged. -/
theorem changePage_pageOk (s : AppState) (p : ℤ) (h : pageOk s) :
    pageOk (changePage s p) := by
  unfold changePage
  split
  · next hc =>
    unfold pageOk at *
    right
    simp only
    omega
  · exact h

/-- With a non-empty data set, a page inside `[1, totalPages]` starts its
slice strictly inside the data. -/
theorem slice_start_le_of_pageOk (s : AppState) (h : pageOk s)
    (hne : s.data ≠ []) (hpp : 0 < s.itemsPerPage) :
    (s.currentPage - 1) * s.itemsPerPage + 1 ≤ s.data.length := by
  rcases h with hnil | ⟨h1, h2⟩
  · exact absurd hnil hne
  · have hL1 : 1 ≤ s.data.length := List.length_pos.mpr hne
    unfold totalPages at h2
    revert h2
    generalize hq : (s.data.length + s.itemsPerPage - 1) / s.itemsPerPage = q
    intro h2
    have hups : q * s.itemsPerPage ≤ s.data.length + s.itemsPerPage - 1 := by
      rw [← hq]
      exact Nat.div_mul_le_self _ _
    have hmul : (s.currentPage - 1) * s.itemsPerPage ≤ (q - 1) * s.itemsPerPage :=
      Nat.mul_le_mul_right _ (by omega)
    have hsub : (q - 1) * s.itemsPerPage = q * s.itemsPerPage - 1 * s.itemsPerPage :=
      Nat.sub_mul q 1 s.itemsPerPage
    generalize hX : (s.currentPage - 1) * s.itemsPerPage = X at hmul ⊢
    generalize hY : (q - 1) * s.itemsPerPage = Y at hmul hsub
    generalize hZ : q * s.itemsPerPage = Z at hups hsub
    omega

/-- `changePage` never touches the selection set. -/
theorem changePage_rowSelection (s : AppState) (p : ℤ) :
    (changePage s p).rowSelection = s.rowSelection := by
  unfold changePage
  split <;> rfl

/-! Claim theorems. -/

/-- C1: the claim says the title filter is applied to the full data set before
slicing to the current page. The code does the opposite: `paginatedData`
slices the raw `data` and the table widget filters only that slice. At the
failing input — eleven products whose only match for the filter `apple` is the
eleventh — page 1 renders no rows, although the claimed pipeline
(`specVisibleRows`) would show the matching row there; the row only appears
after paging to page 2. -/
theorem c1_filter_applied_after_slicing :
    visibleRows data11 "apple" 1 10 = [] ∧
    data11.filter (fun p => titleMatches p.title "apple") = [appleProduct] ∧
    specVisibleRows data11 "apple" 1 10 = [appleProduct] ∧
    visibleRows data11 "apple" 2 10 = [appleProduct] := by
  decide

/-- C4: `changePage(p)` sets the current page to `p` exactly when
`1 ≤ p ≤ totalPages` and is a no-op (on the whole state) for every other `p`;
and in the 25-product scenario with page size 10, page 1 slices rows 1–10,
page 3 slices exactly the last 5 rows, and requesting page 4 from page 3
leaves the current page at 3. -/
theorem c4_changePage_exact_range_and_scenario :
    (∀ (s : AppState) (p : ℤ),
      ((1 ≤ p ∧ p ≤ (totalPages s.data s.itemsPerPage : ℤ)) →
        (changePage s p).currentPage = p.toNat) ∧
      (¬ (1 ≤ p ∧ p ≤ (totalPages s.data s.itemsPerPage : ℤ)) →
        changePage s p = s)) ∧
    totalPages d25 10 = 3 ∧
    paginatedData d25 1 10 = d25.take 10 ∧
    (d25.take 10).length = 10 ∧
    paginatedData d25 3 10 = d25.drop 20 ∧
    (d25.drop 20).length = 5 ∧
    (changePage s25page3 4).currentPage = 3 := by
  refine ⟨fun s p => ⟨fun h => ?_, fun h => ?_⟩, by decide, by decide, by decide,
    by decide, by decide, by decide⟩
  · unfold changePage
    rw [if_pos h]
  · unfold changePage
    rw [if_neg h]

/-- C4 witness: the semantics applied at page 2 of the concrete 25-product
state on page 3. -/
theorem c4_witness :
    ((1 : ℤ) ≤ 2 ∧ (2 : ℤ) ≤ (totalPages s25page3.data s25page3.itemsPerPage : ℤ)) ∧
    (changePage s25page3 2).currentPage = (2 : ℤ).toNat :=
  ⟨by decide, (c4_changePage_exact_range_and_scenario.1 s25page3 2).1 (by decide)⟩

/-- C8: for every product, the expanded detail panel shows the first
`min 3 (images.length)` images — a front part of the stored list, so in
stored order — together with the record's discount percentage and stock, with
the high-stock style exactly when the stock exceeds the 50-unit threshold;
`renderExpanded` is a pure function of the already-loaded record. -/
theorem c8_expanded_panel_fields :
    ∀ p : Product,
      (renderExpanded p).images = p.images.take 3 ∧
      (renderExpanded p).images.length = min 3 p.images.length ∧
      (renderExpanded p).images <+: p.images ∧
      ((renderExpanded p).stockHigh = true ↔ 50 < p.stock) ∧
      (renderExpanded p).discountPercentage = p.discountPercentage ∧
      (renderExpanded p).stock = p.stock ∧
      (renderExpanded p).title = p.title := by
  intro p
  refine ⟨rfl, List.length_take _ _,
    ⟨p.images.drop 3, List.take_append_drop 3 p.images⟩, ?_, rfl, rfl, rfl⟩
  simp [renderExpanded]

/-- C9: for every rating value, the cell shows the value rounded to tenths —
a single decimal digit (`tenthDigit < 10`), whose digits reconstruct
`toFixed(1)`'s rounding `⌊10·r + 1/2⌋` of the value, which is within half a
tenth of the exact value — and the positive class is applied exactly when the
rating is at least 4.5. -/
theorem c9_rating_cell :
    ∀ r : ℚ,
      (renderRating r).tenthDigit < 10 ∧
      ((renderRating r).intPart * 10 + ((renderRating r).tenthDigit : ℤ) = jsToFixed1 r) ∧
      ((jsToFixed1 r : ℚ) ≤ 10 * r + 1 / 2 ∧ 10 * r - 1 / 2 < (jsToFixed1 r : ℚ)) ∧
      ((renderRating r).positive = true ↔ (4.5 : ℚ) ≤ r) := by
  intro r
  refine ⟨?_, ?_, ⟨?_, ?_⟩, ?_⟩
  · show (jsToFixed1 r % 10).toNat < 10
    omega
  · show jsToFixed1 r / 10 * 10 + ((jsToFixed1 r % 10).toNat : ℤ) = jsToFixed1 r
    omega
  · exact_mod_cast Int.floor_le (10 * r + 1 / 2)
  · have h := Int.sub_one_lt_floor (10 * r + 1 / 2)
    unfold jsToFixed1
    linarith
  · show decide ((4.5 : ℚ) ≤ r) = true ↔ (4.5 : ℚ) ≤ r
    exact decide_eq_true_iff

/-- C10: for every state and every outcome of the random comparator,
`randomize` replaces the data with a permutation of itself — the same records
as a multiset, none added, removed or mutated — and touches nothing else. -/
theorem c10_randomize_is_permutation :
    ∀ (s : AppState) (bs : List Bool),
      ((randomize s bs).data).Perm s.data ∧
      ((randomize s bs).data : Multiset Product) = (s.data : Multiset Product) ∧
      (randomize s bs).rowSelection = s.rowSelection ∧
      (randomize s bs).currentPage = s.currentPage ∧
      (randomize s bs).itemsPerPage = s.itemsPerPage ∧
      (randomize s bs).loading = s.loading ∧
      (randomize s bs).toasts = s.toasts := by
  intro s bs
  have h := jsSortRand_fst_perm s.data bs
  exact ⟨h, (Multiset.coe_eq_coe).mpr h, rfl, rfl, rfl, rfl, rfl⟩

/-- C2 (amended): page navigation does preserve the invariant — starting from
a page inside `[1, totalPages]` (or empty data), `changePage` leaves the page
in range and, when data exists, the slice starts inside the data — but, as
the counterexample shows, a reload does not clamp the page and can break the
invariant, and an out-of-range request stays put instead of landing on the
last page. -/
theorem c2_page_navigation_preserves_invariant (s : AppState) (p : ℤ)
    (h : pageOk s) (hpp : 0 < s.itemsPerPage) :
    pageOk (changePage s p) ∧
    ((changePage s p).data ≠ [] →
      ((changePage s p).currentPage - 1) * (changePage s p).itemsPerPage + 1 ≤
        (changePage s p).data.length) := by
  have h1 := changePage_pageOk s p h
  refine ⟨h1, fun hne => ?_⟩
  have hpp2 : (changePage s p).itemsPerPage = s.itemsPerPage := by
    unfold changePage
    split <;> rfl
  exact slice_start_le_of_pageOk _ h1 hne (by rw [hpp2]; exact hpp)

/-- C2 witness: the amended theorem applied to the freshly loaded 25-product
state and a request for page 3. -/
theorem c2_witness :
    (pageOk s25w ∧ 0 < s25w.itemsPerPage) ∧
    (pageOk (changePage s25w 3) ∧
      ((changePage s25w 3).data ≠ [] →
        ((changePage s25w 3).currentPage - 1) * (changePage s25w 3).itemsPerPage + 1 ≤
          (changePage s25w 3).data.length)) :=
  ⟨⟨by decide, by decide⟩,
    c2_page_navigation_preserves_invariant s25w 3 (by decide) (by decide)⟩

/-- C2 counterexample: a reachable state — load 25 products, go to page 3,
reload and get 5 products — has non-empty data, an empty filter (so the
filtered count equals the raw count), yet `pageIndex * pageSize = 20` exceeds
the row count minus one. Also, requesting page 5 from page 1 of 3 stays on
page 1, not on the last valid page. -/
theorem c2_reload_breaks_page_invariant :
    Reachable sBad ∧
    sBad.data ≠ [] ∧
    sBad.filterText = "" ∧
    ¬ ((sBad.currentPage - 1) * sBad.itemsPerPage ≤ sBad.data.length - 1) ∧
    (changePage s25w 5).currentPage = 1 ∧
    totalPages s25w.data s25w.itemsPerPage = 3 := by
  refine ⟨?_, by decide, by decide, by decide, by decide, by decide⟩
  exact .tail (.tail (.tail (.tail (.tail .refl (Step.startLoad _))
    (Step.loadSuccess _ d25)) (Step.page _ 3)) (Step.startLoad _))
    (Step.loadSuccess _ d5)

/-- C3 (amended): on fetch failure both loaders leave the stored product list
unchanged and clear the loading flag; the `index.vue` loader additionally
records exactly one error toast and clears its progress timer, touching no
other state, while the `part_000` loader records no user-facing notification
at all (console log only). -/
theorem c3_failure_path_frame :
    (∀ s : AppState,
      (fetchProductsFailure s).data = s.data ∧
      (fetchProductsFailure s).loading = false ∧
      (fetchProductsFailure s).toasts = s.toasts ++ [fetchErrorToast] ∧
      (fetchProductsFailure s).activeTimers = s.activeTimers \ s.progressInterval.toFinset ∧
      (fetchProductsFailure s).progressInterval = s.progressInterval ∧
      (fetchProductsFailure s).nextTimer = s.nextTimer ∧
      (fetchProductsFailure s).currentPage = s.currentPage ∧
      (fetchProductsFailure s).itemsPerPage = s.itemsPerPage ∧
      (fetchProductsFailure s).filterText = s.filterText ∧
      (fetchProductsFailure s).rowSelection = s.rowSelection ∧
      (fetchProductsFailure s).expandedRows = s.expandedRows ∧
      (fetchProductsFailure s).progress = s.progress ∧
      (fetchProductsFailure s).mounted = s.mounted) ∧
    (∀ s : LoaderState,
      (part000FetchFailure s).data = s.data ∧
      (part000FetchFailure s).loading = false ∧
      (part000FetchFailure s).toasts = s.toasts) :=
  ⟨fun _ => ⟨rfl, rfl, rfl, rfl, rfl, rfl, rfl, rfl, rfl, rfl, rfl, rfl, rfl⟩,
    fun _ => ⟨rfl, rfl, rfl⟩⟩

/-- A concrete pre-failure state of the `part_000` loader. -/
def part000Before : LoaderState := { data := d5, loading := true, toasts := [] }

/-- C3 counterexample: the `part_000` loader's failure path keeps the data and
clears the loading flag but records no notification — its toast list stays
empty — contradicting the claim that a failed load records a user-facing
error notification. -/
theorem c3_part000_records_no_notification :
    (part000FetchFailure part000Before).toasts = [] ∧
    (part000FetchFailure part000Before).loading = false ∧
    (part000FetchFailure part000Before).data = part000Before.data := by
  decide

/-- C5: toggling a row's selection flips exactly that product id — its own
membership inverts and every other id's membership is untouched — and page
changes (single or round trip), filter changes and randomize all leave the
selection set unchanged. The toggle itself is modelled from the spec, since
the selection store lives in the table widget, not in this repository. -/
theorem c5_selection_independent_of_pagination :
    (∀ (s : AppState) (pid : ℕ),
      (pid ∈ (toggleSelected s pid).rowSelection ↔ pid ∉ s.rowSelection) ∧
      (∀ q : ℕ, q ≠ pid →
        (q ∈ (toggleSelected s pid).rowSelection ↔ q ∈ s.rowSelection))) ∧
    (∀ (s : AppState) (p : ℤ), (changePage s p).rowSelection = s.rowSelection) ∧
    (∀ (s : AppState) (p q : ℤ),
      (changePage (changePage s p) q).rowSelection = s.rowSelection) ∧
    (∀ (s : AppState) (t : String), (setFilterValue s t).rowSelection = s.rowSelection) ∧
    (∀ (s : AppState) (bs : List Bool), (randomize s bs).rowSelection = s.rowSelection) := by
  refine ⟨fun s pid => ⟨?_, fun q hq => ?_⟩, fun s p => changePage_rowSelection s p,
    fun s p q => ?_, fun s t => rfl, fun s bs => rfl⟩
  · unfold toggleSelected
    split
    · next hmem => simp [Finset.mem_erase, hmem]
    · next hmem => simp [Finset.mem_insert, hmem]
  · unfold toggleSelected
    split
    · simp [Finset.mem_erase, hq]
    · simp [Finset.mem_insert, hq]
  · rw [changePage_rowSelection, changePage_rowSelection]

/-- C5 witness: with rows 1 and 2 selected, toggling row 3 leaves row 2's
membership unchanged. -/
theorem c5_witness :
    ((2 : ℕ) ≠ 3) ∧
    ((2 : ℕ) ∈ (toggleSelected selState 3).rowSelection ↔
      (2 : ℕ) ∈ selState.rowSelection) :=
  ⟨by decide, (c5_selection_independent_of_pagination.1 selState 3).2 2 (by decide)⟩

/-- C6 (amended): each completion of a load — the success path and the
failure path both, via the `finally` block — cancels exactly the timer handle
currently stored in `progressInterval`; for a load that was not overlapped
(the stored handle is the only active timer) completion therefore cancels its
timer. But a timer orphaned when an overlapping second load overwrote the ref
is never canceled by any completion, and component teardown cancels nothing:
the source registers no unmount hook, so the active-timer set crosses
teardown unchanged. -/
theorem c6_timer_canceled_on_completion :
    (∀ (s : AppState) (ps : List Product),
      (fetchProductsSuccess s ps).activeTimers =
        s.activeTimers \ s.progressInterval.toFinset) ∧
    (∀ s : AppState,
      (fetchProductsFailure s).activeTimers =
        s.activeTimers \ s.progressInterval.toFinset) ∧
    (∀ (s : AppState) (h : ℕ) (ps : List Product),
      s.progressInterval = some h → s.activeTimers ⊆ {h} →
        (fetchProductsSuccess s ps).activeTimers = ∅ ∧
        (fetchProductsFailure s).activeTimers = ∅) ∧
    (∀ s : AppState, (componentUnmount s).activeTimers = s.activeTimers) := by
  refine ⟨fun s ps => rfl, fun s => rfl, fun s h ps h1 h2 => ?_, fun s => rfl⟩
  have he : s.activeTimers \ s.progressInterval.toFinset = ∅ := by
    rw [h1]
    exact Finset.sdiff_eq_empty_iff_subset.mpr h2
  exact ⟨he, he⟩

/-- C6 witness: the amended theorem's single-load case applied to the state
with one load in flight, whose stored handle 1 is the only active timer. -/
theorem c6_witness :
    (sRunning.progressInterval = some 1 ∧ sRunning.activeTimers ⊆ {1}) ∧
    ((fetchProductsSuccess sRunning d5).activeTimers = ∅ ∧
      (fetchProductsFailure sRunning).activeTimers = ∅) :=
  ⟨⟨rfl, by decide⟩,
    c6_timer_canceled_on_completion.2.2.1 sRunning 1 d5 rfl (by decide)⟩

/-- C6 counterexample: start a load, start a second load while the first is
in flight (the ref now holds handle 2, orphaning handle 1), and let both
resolve — each `finally` clears only the stored handle 2, so after both loads
have completed the orphaned interval 1 is still active and a further tick of
it still fires, moving the progress value off 100; teardown cancels nothing
either (the state after unmounting mid-load keeps its timer). This
contradicts the claim that after load completion or teardown no
progress-timer tick ever fires. -/
theorem c6_orphaned_timer_survives_completion :
    Reachable sOrphan ∧
    (1 : ℕ) ∈ sOrphan.activeTimers ∧
    (progressIntervalTick sOrphan 1 10).progress ≠ sOrphan.progress ∧
    (componentUnmount sRunning).activeTimers = sRunning.activeTimers ∧
    (1 : ℕ) ∈ sRunning.activeTimers ∧
    (componentUnmount sRunning).mounted = false := by
  have hA : (1 : ℕ) ∈ sOrphan.activeTimers := by decide
  refine ⟨?_, hA, ?_, rfl, by decide, rfl⟩
  · exact .tail (.tail (.tail (.tail .refl (Step.startLoad _)) (Step.startLoad _))
      (Step.loadSuccess _ d25)) (Step.loadSuccess _ d5)
  · have hp : sOrphan.progress = 100 := rfl
    have ht : (progressIntervalTick sOrphan 1 10).progress = 95 := by
      unfold progressIntervalTick
      rw [if_pos hA]
      show min (sOrphan.progress + 10) 95 = 95
      rw [hp, min_eq_right (by norm_num : (95 : ℚ) ≤ 100 + 10)]
    rw [ht, hp]
    norm_num

/-- C7: a tick of any active timer caps the progress value at 95 — in
particular keeps it strictly below 100 whatever the random increment — and
when the fetch resolves the progress value is set to exactly 100. -/
theorem c7_progress_capped_until_resolve (s : AppState) (t : ℕ) (r : ℚ)
    (h : t ∈ s.activeTimers) :
    (progressIntervalTick s t r).progress ≤ 95 ∧
    (progressIntervalTick s t r).progress < 100 ∧
    (∀ ps : List Product, (fetchProductsSuccess s ps).progress = 100) := by
  have h1 : (progressIntervalTick s t r).progress = min (s.progress + r) 95 := by
    unfold progressIntervalTick
    rw [if_pos h]
  refine ⟨?_, ?_, fun ps => rfl⟩
  · rw [h1]
    exact min_le_right _ _
  · rw [h1]
    exact lt_of_le_of_lt (min_le_right _ _) (by norm_num)

/-- C7 witness: a tick of 7 of the freshly started load's timer stays at most
95 and strictly below 100. -/
theorem c7_witness :
    (1 : ℕ) ∈ sRunning.activeTimers ∧
    (progressIntervalTick sRunning 1 7).progress ≤ 95 ∧
    (progressIntervalTick sRunning 1 7).progress < 100 :=
  ⟨by decide, (c7_progress_capped_until_resolve sRunning 1 7 (by decide)).1,
    (c7_progress_capped_until_resolve sRunning 1 7 (by decide)).2.1⟩

end Lab8
